import Mathlib

/-!
Shallow embedding of the pet-finder scraping pipeline
(`website/services.py`, `website/models.py`, `website/geocoding.py`).

Modelling conventions, fixed once for the whole file:

* Python floats carried in the data (coordinates, max distance) are modelled
  as rationals `ℚ` (every float value is a rational); the transcendental
  haversine arithmetic is carried out exactly in `ℝ`.
* Python `None` is `Option.none`; Python truthiness of a numeric value is
  "present and nonzero" and of a string is "nonempty".
* The database table of `Pet` rows is a `List StoredPet`; primary keys are
  naturals handed out by a monotone counter, creation timestamps are naturals.
* Fallible Python code is modelled in `Except PyErr`, with one constructor
  per Python exception class that the source can raise or catch.
* Fields of the `Pet` model that no claim ever consults (photo url, sex,
  size, age, colors, fees, city/state/zip, scraped_at) are elided from the
  record types; the code never branches on them.
-/

namespace PetFinder

/-- Python exception kinds that the scraping code raises or catches.
`requestError` stands for `requests.exceptions.RequestException` (timeouts,
connection failures and `raise_for_status` HTTP errors are its subclasses),
`valueError` for `ValueError` (JSON decode errors are a subclass),
`petFinderAPIError` for the domain error class defined in `services.py`. -/
inductive PyErr where
  | requestError (msg : String)
  | valueError (msg : String)
  | typeError (msg : String)
  | attributeError (msg : String)
  | keyError (msg : String)
  | petFinderAPIError (msg : String)
deriving DecidableEq, Repr

/-- The `distance` argument of `build_search_url` as a dynamically typed
Python value: `None`, an integer, or a string (the value a web form would
deliver). -/
inductive DistanceArg where
  | none
  | int (n : ℤ)
  | str (s : String)
deriving DecidableEq, Repr

/-- Python `str.strip()`: drop leading and trailing whitespace (structural
implementation on the character list). -/
def pyStrip (s : String) : String :=
  ⟨((s.data.dropWhile Char.isWhitespace).reverse.dropWhile Char.isWhitespace).reverse⟩

/-- Decimal digit run to a natural number; `none` if a non-digit occurs. -/
def digitsToNat : ℕ → List Char → Option ℕ
  | acc, [] => some acc
  | acc, c :: r =>
    if c.isDigit then digitsToNat (acc * 10 + (c.toNat - 48)) r else Option.none

/-- Python `int(s)` for a string: optional sign, then at least one decimal
digit, surrounding whitespace allowed; `none` models the `ValueError`. -/
def pyStrToInt (s : String) : Option ℤ :=
  match (pyStrip s).data with
  | [] => Option.none
  | '-' :: r => if r.isEmpty then Option.none else (digitsToNat 0 r).map (fun n => -(n : ℤ))
  | '+' :: r => if r.isEmpty then Option.none else (digitsToNat 0 r).map (fun n => (n : ℤ))
  | l => (digitsToNat 0 l).map (fun n => (n : ℤ))

/-- Python `int(x)` on the values of `DistanceArg` that reach it:
an integer converts to itself, a string parses as a decimal integer or
raises `ValueError`. -/
def pyInt : DistanceArg → Except PyErr ℤ
  | .none => .error (.typeError "int() argument must not be None")
  | .int n => .ok n
  | .str s =>
    match pyStrToInt s with
    | some n => .ok n
    | Option.none => .error (.valueError ("invalid literal for int() with base 10: " ++ s))

/-- `PetFinderScraper.build_search_url` (services.py lines 51-97): replace a
`None` distance by 100, convert with `int()`, clamp into `[1, 500]`, and
interpolate the parameters into the query string in the source's dict order. -/
def build_search_url (city state animal : String) (page limit : ℤ)
    (distance : DistanceArg) : Except PyErr String :=
  let d0 : DistanceArg := match distance with
    | .none => .int 100
    | d => d
  match pyInt d0 with
  | .error e => .error e
  | .ok n =>
    let d : ℤ := if n < 1 then 1 else if n > 500 then 500 else n
    .ok s!"https://www.petfinder.com/search/?page={page}&limit[]={limit}&status=adoptable&distance[]={d}&type[]={animal}&sort[]=nearest&location_slug[]=us%2F{state}%2F{city}&include_transportable=true"

/-- Python truthiness of an optional numeric value: truthy iff present and
nonzero (`None` and `0.0` are both falsy). -/
def truthyQ : Option ℚ → Bool
  | Option.none => false
  | some q => q != 0

/-- `math.radians`: degrees to radians. -/
noncomputable def radians (deg : ℚ) : ℝ := (deg : ℝ) * Real.pi / 180

/-- `math.atan2` with the usual C library convention, on exact reals. -/
noncomputable def atan2 (y x : ℝ) : ℝ :=
  if 0 < x then Real.arctan (y / x)
  else if x < 0 ∧ 0 ≤ y then Real.arctan (y / x) + Real.pi
  else if x < 0 ∧ y < 0 then Real.arctan (y / x) - Real.pi
  else if x = 0 ∧ 0 < y then Real.pi / 2
  else if x = 0 ∧ y < 0 then -(Real.pi / 2)
  else 0

/-- The haversine arithmetic of `Pet.calculate_distance` (models.py lines
218-231), on exact reals, Earth radius 3959 miles. -/
noncomputable def haversine (lat1 lon1 lat2 lon2 : ℚ) : ℝ :=
  let R : ℝ := 3959
  let lat1_rad := radians lat1
  let lat2_rad := radians lat2
  let delta_lat := radians (lat2 - lat1)
  let delta_lon := radians (lon2 - lon1)
  let a := Real.sin (delta_lat / 2) ^ 2 +
    Real.cos lat1_rad * Real.cos lat2_rad * Real.sin (delta_lon / 2) ^ 2
  let c := 2 * atan2 (Real.sqrt a) (Real.sqrt (1 - a))
  R * c

/-- `Pet.calculate_distance` (models.py lines 204-231).  The guard
`not all([self.latitude, self.longitude, target_lat, target_lon])` returns
`None` when any of the four values is `None` or `0` (Python truthiness). -/
noncomputable def calculate_distance (lat lon tlat tlon : Option ℚ) : Option ℝ :=
  match lat, lon, tlat, tlon with
  | some la, some lo, some ta, some tb =>
    if la = 0 ∨ lo = 0 ∨ ta = 0 ∨ tb = 0 then Option.none
    else some (haversine la lo ta tb)
  | _, _, _, _ => Option.none

/-- A normalized record as produced by `extract_pet_data` and consumed by
`save_pets_to_database` (the dict keys a claim consults). -/
structure PetRecord where
  name : String
  primary_breed : String
  profile_url : String
  latitude : Option ℚ
  longitude : Option ℚ
deriving DecidableEq, Repr

/-- A persisted `Pet` row (models.py).  `id` is the database primary key,
`created_at` the creation timestamp; an absent/NULL/empty `profile_url` is
uniformly the empty string (the normalizer only ever writes strings). -/
structure StoredPet where
  id : ℕ
  name : String
  primary_breed : String
  profile_url : String
  latitude : Option ℚ
  longitude : Option ℚ
  created_at : ℕ
deriving DecidableEq, Repr

/-- The mutable state of one `save_pets_to_database` call: the table plus the
`saved_count` / `updated_count` / `filtered_count` counters and the primary
key counter. -/
structure SaveState where
  store : List StoredPet
  nextId : ℕ
  saved : ℕ
  updated : ℕ
  filtered : ℕ
deriving DecidableEq, Repr

/-- The per-record distance-filter decision of `save_pets_to_database`
(services.py lines 229-248): active only when search latitude, search
longitude and max distance are all truthy; a record with falsy coordinates
passes through; otherwise the record is skipped when the computed distance
is `None` or exceeds the max distance. -/
noncomputable def distanceFiltered (searchLat searchLon maxDist : Option ℚ)
    (r : PetRecord) : Bool :=
  match searchLat, searchLon, maxDist with
  | some sl, some so, some m =>
    if sl ≠ 0 ∧ so ≠ 0 ∧ m ≠ 0 then
      if truthyQ r.latitude && truthyQ r.longitude then
        match calculate_distance r.latitude r.longitude (some sl) (some so) with
        | Option.none => true
        | some d => decide (d > (m : ℝ))
      else false
    else false
  | _, _, _ => false

/-- Picks the row `queryset.filter(profile_url=...).first()` returns under the
model's default ordering `-created_at`: a row of maximal `created_at`
(ordering ties are database-arbitrary; the model keeps the earliest-listed
maximal row). -/
def firstByCreatedDesc : List StoredPet → Option StoredPet
  | [] => Option.none
  | p :: ps =>
    match firstByCreatedDesc ps with
    | Option.none => some p
    | some q => if p.created_at < q.created_at then some q else some p

/-- The field overwrite `setattr(existing_pet, key, value)` for every key of
the record dict except `id`; `created_at` is not a key of the normalized
record, so it is preserved. -/
def updatePet (p : StoredPet) (r : PetRecord) : StoredPet :=
  { p with
    name := r.name
    primary_breed := r.primary_breed
    profile_url := r.profile_url
    latitude := r.latitude
    longitude := r.longitude }

/-- `Pet.objects.create(**pet_data)`: a fresh row with the next primary key
and the current time as `created_at`. -/
def newPet (id now : ℕ) (r : PetRecord) : StoredPet :=
  ⟨id, r.name, r.primary_breed, r.profile_url, r.latitude, r.longitude, now⟩

/-- The duplicate lookup of `save_pets_to_database` (services.py lines
250-256): `Pet.objects.filter(profile_url=profile_url).first()` on the
*stripped* profile URL, attempted only when that is nonempty. -/
def lookupExisting (store : List StoredPet) (r : PetRecord) : Option StoredPet :=
  if pyStrip r.profile_url ≠ "" then
    firstByCreatedDesc (store.filter (fun p => p.profile_url == pyStrip r.profile_url))
  else Option.none

/-- The upsert part of the per-record loop body of `save_pets_to_database`
(services.py lines 250-274): look up an existing row by the *stripped*
profile URL when that is nonempty, overwrite it if found, otherwise insert
the *raw* record as a new row. -/
def upsertRecord (now : ℕ) (s : SaveState) (r : PetRecord) : SaveState :=
  match lookupExisting s.store r with
  | some p =>
    { s with
      store := s.store.map (fun q => if q.id = p.id then updatePet q r else q),
      updated := s.updated + 1 }
  | Option.none =>
    { s with
      store := s.store ++ [newPet s.nextId now r],
      nextId := s.nextId + 1,
      saved := s.saved + 1 }

/-- One iteration of the `for pet_data in pets_data` loop of
`save_pets_to_database`: distance filter, then upsert. -/
noncomputable def applyRecord (searchLat searchLon maxDist : Option ℚ) (now : ℕ)
    (s : SaveState) (r : PetRecord) : SaveState :=
  if distanceFiltered searchLat searchLon maxDist r then
    { s with filtered := s.filtered + 1 }
  else upsertRecord now s r

/-- `PetFinderScraper.save_pets_to_database` (services.py lines 201-281).
`searchLat`/`searchLon` are the result of `get_coordinates_cached` (the
external geocoder, a parameter of the model), `maxDist` the `max_distance`
argument.  Returns the final state; the Python function's return value is
its `saved` field. -/
noncomputable def save_pets_to_database (store : List StoredPet) (nextId now : ℕ)
    (records : List PetRecord) (searchLat searchLon maxDist : Option ℚ) : SaveState :=
  records.foldl (applyRecord searchLat searchLon maxDist now) ⟨store, nextId, 0, 0, 0⟩

/-- Number of rows carrying a given profile URL. -/
def urlCount (store : List StoredPet) (u : String) : ℕ :=
  store.countP (fun p => p.profile_url == u)

/-- The data-model invariant: at most one stored Pet has any given non-empty
profile identifier (no two distinct rows share a nonempty profile URL). -/
def uniqueProfileUrls (store : List StoredPet) : Prop :=
  store.Pairwise (fun p q => p.profile_url = q.profile_url → p.profile_url = "")

/-- Database well-formedness: primary keys are pairwise distinct and below
the key counter. -/
def WellFormedStore (store : List StoredPet) (nextId : ℕ) : Prop :=
  store.Pairwise (fun p q => p.id ≠ q.id) ∧ ∀ p ∈ store, p.id < nextId

/-- Whether `p` survives the `order_by('-created_at')` keep-the-first rule
inside its profile-URL group: every other row of the group was created
strictly earlier.  (Ordering ties are database-arbitrary in the source; the
model keeps a strict maximum, and all sweep theorems assume pairwise
distinct timestamps.) -/
def isMostRecentOfUrl (store : List StoredPet) (p : StoredPet) : Bool :=
  store.all (fun q =>
    q.profile_url != p.profile_url || q.id == p.id || decide (q.created_at < p.created_at))

/-- Pass (a) of `remove_duplicate_pets` (services.py lines 417-428): for every
nonempty profile URL shared by more than one row, keep the most recently
created row and delete the rest. -/
def sweepByProfileUrl (store : List StoredPet) : List StoredPet :=
  store.filter (fun p =>
    p.profile_url == "" || decide (urlCount store p.profile_url ≤ 1) ||
      isMostRecentOfUrl store p)

/-- Number of rows carrying a given (name, primary_breed) pair. -/
def nameBreedCount (store : List StoredPet) (n b : String) : ℕ :=
  store.countP (fun q => q.name == n && q.primary_breed == b)

/-- Whether `p` survives the keep-the-first rule inside its
(name, primary_breed) group. -/
def isMostRecentOfNameBreed (store : List StoredPet) (p : StoredPet) : Bool :=
  store.all (fun q =>
    !(q.name == p.name && q.primary_breed == p.primary_breed) || q.id == p.id ||
      decide (q.created_at < p.created_at))

/-- Pass (b) of `remove_duplicate_pets` (services.py lines 430-444): for every
(name, primary_breed) pair shared by more than one row, keep the most
recently created row and delete the rest. -/
def sweepByNameBreed (store : List StoredPet) : List StoredPet :=
  store.filter (fun p =>
    decide (nameBreedCount store p.name p.primary_breed ≤ 1) ||
      isMostRecentOfNameBreed store p)

/-- `remove_duplicate_pets` (services.py lines 403-447): pass (a) then pass
(b) on its result; returns the surviving table and the number of deleted
rows across both passes. -/
def remove_duplicate_pets (store : List StoredPet) : List StoredPet × ℕ :=
  let s1 := sweepByProfileUrl store
  let s2 := sweepByNameBreed s1
  (s2, (store.length - s1.length) + (s1.length - s2.length))

/-- A parsed JSON value (`response.json()` output). -/
inductive Json where
  | obj (fields : List (String × Json))
  | arr (elems : List Json)
  | str (s : String)
  | num (q : ℚ)
  | bool (b : Bool)
  | null

/-- Prefix test on character lists. -/
def chPre : List Char → List Char → Bool
  | [], _ => true
  | _ :: _, [] => false
  | a :: n, b :: h => a == b && chPre n h

/-- Substring test on character lists. -/
def chSub : List Char → List Char → Bool
  | n, [] => n.isEmpty
  | n, b :: h => chPre n (b :: h) || chSub n h

/-- Python `needle in hay` for strings (substring containment). -/
def strContains (hay needle : String) : Bool :=
  chSub needle.toList hay.toList

/-- Python `k in data` on a parsed JSON value: key membership for a dict,
element equality for a list, substring test for a string, and a `TypeError`
for the non-iterable scalars (number, boolean, `None`). -/
def pyContains (k : String) : Json → Except PyErr Bool
  | .obj fs => .ok (fs.any (fun f => f.1 == k))
  | .arr es => .ok (es.any (fun e => match e with | .str s => s == k | _ => false))
  | .str s => .ok (strContains s k)
  | _ => .error (.typeError "argument of type is not iterable")

/-- Python `data.get(k, dflt)`: only dicts have `.get`; anything else raises
`AttributeError`. -/
def pyDictGetD (j : Json) (k : String) (dflt : Json) : Except PyErr Json :=
  match j with
  | .obj fs => .ok (((fs.find? (fun f => f.1 == k)).map (fun f => f.2)).getD dflt)
  | _ => .error (.attributeError "object has no attribute get")

/-- Python `data[k]` for a string key: dict lookup (`KeyError` when absent),
`TypeError` on anything else. -/
def pySubscript (j : Json) (k : String) : Except PyErr Json :=
  match j with
  | .obj fs =>
    match fs.find? (fun f => f.1 == k) with
    | some f => .ok f.2
    | Option.none => .error (.keyError k)
  | _ => .error (.typeError "object is not subscriptable")

/-- Python `v.strip()`: defined on strings, `AttributeError` otherwise. -/
def pyStrStrip (j : Json) : Except PyErr String :=
  match j with
  | .str s => .ok (pyStrip s)
  | _ => .error (.attributeError "object has no attribute strip")

/-- Python truthiness of a parsed JSON value. -/
def jTruthy : Json → Bool
  | .null => false
  | .bool b => b
  | .num q => q != 0
  | .str s => s != ""
  | .obj fs => !fs.isEmpty
  | .arr es => !es.isEmpty

/-- What the transport layer (`self.session.get(url, timeout=30)` followed by
`response.json()`) hands the code for one URL: either a raised
`requests.exceptions.RequestException` (timeout, connection error, ...), or a
response with an HTTP status and a body that is valid JSON (`some`) or not
(`none`, making `response.json()` raise a `ValueError`). -/
inductive HttpResult where
  | exn (msg : String)
  | success (status : ℕ) (body : Option Json)

/-- `PetFinderScraper.fetch_page_data` (services.py lines 99-130) applied to
the transport outcome for its URL.  `response.raise_for_status()` raises an
`HTTPError` (a `RequestException`) exactly for statuses in the 4xx/5xx
range.  The `except` clauses re-raise `RequestException` and `ValueError`
as `PetFinderAPIError`; any other exception propagates unchanged. -/
def fetch_page_data (resp : HttpResult) : Except PyErr Json :=
  let attempt : Except PyErr Json :=
    match resp with
    | .exn msg => .error (.requestError msg)
    | .success status body =>
      if 400 ≤ status then .error (.requestError s!"HTTP error {status}")
      else
        match body with
        | Option.none => .error (.valueError "Expecting value")
        | some data =>
          match pyContains "result" data with
          | .error e => .error e
          | .ok true => .ok data
          | .ok false =>
            .error (.petFinderAPIError "Invalid response structure: missing result key")
  match attempt with
  | .ok d => .ok d
  | .error (.requestError m) => .error (.petFinderAPIError ("Failed to fetch data: " ++ m))
  | .error (.valueError m) => .error (.petFinderAPIError ("Invalid JSON response: " ++ m))
  | .error e => .error e

/-- A JSON coordinate value as an optional rational; the model assumes the
`geo` payload carries numbers or nothing (a non-numeric coordinate would
only fail later, at database write time, in the source). -/
def jAsQ : Json → Option ℚ
  | .num q => some q
  | _ => Option.none

/-- `PetFinderScraper.extract_pet_data` (services.py lines 132-199).  Every
defensive access of the source is replayed in order, including the ones
whose results the model's record type elides (their only observable effect
is the exception they can raise); the record keeps the fields some claim
consults. -/
def extract_pet_data (pet_data : Json) : Except PyErr PetRecord := do
  let animal ← pyDictGetD pet_data "animal" (.obj [])
  let location ← pyDictGetD pet_data "location" (.obj [])
  let name ← pyStrStrip (← pyDictGetD animal "name" (.str ""))
  let pbv ← pyDictGetD animal "primary_breed" .null
  let primary_breed ←
    if jTruthy pbv then do
      pyStrStrip (← pyDictGetD pbv "name" (.str ""))
    else pure ""
  let _ ← pyStrStrip (← pyDictGetD animal "primary_color" (.str ""))
  let _ ← pyStrStrip (← pyDictGetD animal "age" (.str ""))
  let _ ← pyStrStrip (← pyDictGetD animal "sex" (.str ""))
  let _ ← pyStrStrip (← pyDictGetD animal "size" (.str ""))
  let _ ← pyStrStrip (← pyDictGetD animal "coat_length" (.str ""))
  let coords ←
    if jTruthy location then do
      let address ← pyDictGetD location "address" (.obj [])
      let _ ← pyStrStrip (← pyDictGetD address "city" (.str ""))
      let _ ← pyStrStrip (← pyDictGetD address "state" (.str ""))
      let _ ← pyStrStrip (← pyDictGetD address "postal_code" (.str ""))
      let geo ← pyDictGetD location "geo" (.obj [])
      if jTruthy geo then do
        let la ← pyDictGetD geo "latitude" .null
        let lo ← pyDictGetD geo "longitude" .null
        pure (jAsQ la, jAsQ lo)
      else pure (Option.none, Option.none)
    else pure ((Option.none : Option ℚ), (Option.none : Option ℚ))
  let sb ← pyDictGetD animal "secondary_breed" .null
  let _ ←
    if jTruthy sb then do
      let sbv ← pySubscript animal "secondary_breed"
      let _ ← pyStrStrip (← pyDictGetD sbv "name" (.str ""))
      pure ()
    else pure ()
  let social ← pyDictGetD animal "social_sharing" (.obj [])
  let profile_url ←
    if jTruthy social then do
      let c ← pyContains "email_url" social
      if c then do
        pyStrStrip (← pySubscript social "email_url")
      else pure ""
    else pure ""
  let hasPhoto ← pyContains "primary_photo_cropped_url" animal
  let _ ←
    if hasPhoto then do
      let _ ← pyStrStrip (← pySubscript animal "primary_photo_cropped_url")
      pure ()
    else pure ()
  pure ⟨name, primary_breed, profile_url, coords.1, coords.2⟩

/-- The side effects the pagination loop performs against the outside world,
in order: issuing the fetch of a page, and sleeping. -/
inductive ScrapeEvent where
  | fetchPage (p : ℕ)
  | sleep (secs : ℕ)
deriving DecidableEq, Repr

/-- A JSON `total_pages` value as a natural number (the source passes it
straight into `min`; the model restricts it to naturals). -/
def jsonToNatTP (j : Json) : Except PyErr ℕ :=
  match j with
  | .num q => if q.den = 1 ∧ 0 ≤ q.num then .ok q.num.toNat
    else .error (.typeError "total_pages is not a natural number")
  | _ => .error (.typeError "total_pages is not a number")

/-- `first_page_data.get('result', {}).get('pagination', {}).get('total_pages', 1)`
(services.py lines 307-308). -/
def get_total_pages (firstData : Json) : Except PyErr ℕ := do
  let r ← pyDictGetD firstData "result" (.obj [])
  let pg ← pyDictGetD r "pagination" (.obj [])
  let tp ← pyDictGetD pg "total_pages" (.num 1)
  jsonToNatTP tp

/-- `page_data.get('result', {}).get('animals', [])` (services.py line 330). -/
def pyGetAnimals (data : Json) : Except PyErr Json := do
  let r ← pyDictGetD data "result" (.obj [])
  pyDictGetD r "animals" (.arr [])

/-- The `for animal_data in animals` body: records are appended one at a
time, and the first extraction failure aborts the page (keeping the records
already appended, which at that point are exactly the successful prefix). -/
def extractAll : List Json → List PetRecord
  | [] => []
  | a :: rest =>
    match extract_pet_data a with
    | .ok r => r :: extractAll rest
    | .error _ => []

/-- The records one page contributes to `all_pets_data`: nothing when the
defensive `animals` access fails or yields a non-list (iterating a
non-list either raises or yields non-dict elements whose extraction fails
immediately), otherwise the successful extraction prefix. -/
def processPage (data : Json) : List PetRecord :=
  match pyGetAnimals data with
  | .ok (.arr animals) => extractAll animals
  | _ => []

/-- Records page `p` contributes inside the loop: page 1 reuses the data
already fetched; a later page is re-fetched and contributes nothing if that
fetch fails. -/
def pageRecords (fetchPd : ℕ → Except PyErr Json) (firstData : Json) (p : ℕ) :
    List PetRecord :=
  if p = 1 then processPage firstData
  else
    match fetchPd p with
    | .ok d => processPage d
    | .error _ => []

/-- Events page `p` emits inside the loop: page 1 fetches nothing (the data
is reused); a later page issues a fetch, and `time.sleep(2)` runs right
after the fetch returns — so a failed fetch skips the sleep. -/
def pageEvents (fetchPd : ℕ → Except PyErr Json) (p : ℕ) : List ScrapeEvent :=
  if p = 1 then []
  else
    match fetchPd p with
    | .ok _ => [.fetchPage p, .sleep 2]
    | .error _ => [.fetchPage p]

/-- The `for page_num in range(1, pages_to_scrape + 1)` loop of
`scrape_pets` (services.py lines 318-340) over an explicit page list,
accumulating records and emitted events in order.  The per-page
`try/except` is reflected in `pageRecords`/`pageEvents`: a failing page is
skipped and the loop continues. -/
def scrape_loop (fetchPd : ℕ → Except PyErr Json) (firstData : Json) :
    List ℕ → List PetRecord × List ScrapeEvent
  | [] => ([], [])
  | p :: ps =>
    let rest := scrape_loop fetchPd firstData ps
    (pageRecords fetchPd firstData p ++ rest.1, pageEvents fetchPd p ++ rest.2)

/-- A minimal well-formed page payload advertising `n` total pages and an
empty animal list (used to instantiate concrete scrapes). -/
def pageStub (n : ℚ) : Json :=
  .obj [("result", .obj [("pagination", .obj [("total_pages", .num n)]),
    ("animals", .arr [])])]

/-- The `str(e)` of a modelled Python exception. -/
def errMsg : PyErr → String
  | .requestError m => m
  | .valueError m => m
  | .typeError m => m
  | .attributeError m => m
  | .keyError m => m
  | .petFinderAPIError m => m

/-- Everything observable about one `scrape_pets` call: its return value (or
raised error), the table it leaves behind, and the ordered fetch/sleep
events it performed. -/
structure ScrapeOutcome where
  result : Except PyErr (ℕ × ℕ)
  store : List StoredPet
  events : List ScrapeEvent

/-- `PetFinderScraper.scrape_pets` (services.py lines 283-356).  `fetchPd p`
is `fetch_page_data` on the URL built for page `p` (the composition of
`build_search_url` with the network, a parameter of the model);
`searchLat`/`searchLon` are the geocoder's answer for the search city and
state.  The initial page-1 fetch and the pagination-metadata reads happen
before the per-page `try/except`, so their failure aborts the whole call
through the outer handler, which wraps any exception in
`PetFinderAPIError`. -/
noncomputable def scrape_pets (fetchPd : ℕ → Except PyErr Json)
    (store : List StoredPet) (nextId now : ℕ) (searchLat searchLon : Option ℚ)
    (max_pages : ℕ) (distance : ℚ) : ScrapeOutcome :=
  match fetchPd 1 with
  | .error e =>
    ⟨.error (.petFinderAPIError ("Scraping failed: " ++ errMsg e)), store, [.fetchPage 1]⟩
  | .ok firstData =>
    match get_total_pages firstData with
    | .error e =>
      ⟨.error (.petFinderAPIError ("Scraping failed: " ++ errMsg e)), store, [.fetchPage 1]⟩
    | .ok total_pages =>
      let pages_to_scrape := min max_pages total_pages
      let collected := scrape_loop fetchPd firstData (List.range' 1 pages_to_scrape)
      let res := save_pets_to_database store nextId now collected.1
        searchLat searchLon (some distance)
      ⟨.ok (total_pages, res.saved), res.store, .fetchPage 1 :: collected.2⟩

/-! Theorems.  Helper lemmas come first, then one theorem (with witness or
counterexample where required) per claim. -/

lemma haversine_self (la lo : ℚ) : haversine la lo la lo = 0 := by
  simp [haversine, radians, atan2, sub_self, Real.sin_zero, Real.sqrt_zero,
    Real.sqrt_one, Real.arctan_zero]

lemma haversine_symm (a b c d : ℚ) : haversine a b c d = haversine c d a b := by
  simp only [haversine, radians]
  have h1 : ((c - a : ℚ) : ℝ) * Real.pi / 180 / 2 =
      -(((a - c : ℚ) : ℝ) * Real.pi / 180 / 2) := by push_cast; ring
  have h2 : ((d - b : ℚ) : ℝ) * Real.pi / 180 / 2 =
      -(((b - d : ℚ) : ℝ) * Real.pi / 180 / 2) := by push_cast; ring
  rw [h1, h2, Real.sin_neg, Real.sin_neg, neg_sq, neg_sq,
    mul_comm (Real.cos ((a : ℝ) * Real.pi / 180)) (Real.cos ((c : ℝ) * Real.pi / 180))]

/-- C9 (amended): the Distance Calculator is symmetric for all argument
pairs, and `distance(P,P) = 0` holds for every point whose coordinates are
present and nonzero (for a zero or missing coordinate the result is absent,
see the counterexample). -/
theorem calculate_distance_symm_and_self :
    (∀ la lo ta tb : Option ℚ,
      calculate_distance la lo ta tb = calculate_distance ta tb la lo)
    ∧ (∀ la lo : ℚ, la ≠ 0 → lo ≠ 0 →
      calculate_distance (some la) (some lo) (some la) (some lo) = some 0) := by
  constructor
  · intro la lo ta tb
    rcases la with _ | a <;> rcases lo with _ | b <;> rcases ta with _ | c <;>
      rcases tb with _ | d <;> simp only [calculate_distance]
    by_cases h : a = 0 ∨ b = 0 ∨ c = 0 ∨ d = 0
    · rw [if_pos h, if_pos (by tauto)]
    · rw [if_neg h, if_neg (by tauto), haversine_symm]
  · intro la lo hla hlo
    simp only [calculate_distance]
    rw [if_neg (by tauto), haversine_self]

/-- C9 witness: the theorem applied at the point (47, -122). -/
theorem calculate_distance_symm_and_self_witness :
    calculate_distance (some 47) (some (-122)) (some 47) (some (-122)) = some 0 :=
  calculate_distance_symm_and_self.2 47 (-122) (by norm_num) (by norm_num)

/-- C9 counterexample: the equator point (0, 50) has both coordinates
present, yet `distance(P,P)` is absent rather than 0, because the source
tests coordinate presence by truthiness and `0` is falsy. -/
theorem calculate_distance_self_zero_counterexample :
    calculate_distance (some 0) (some 50) (some 0) (some 50) = Option.none ∧
    calculate_distance (some 0) (some 50) (some 0) (some 50) ≠ some (0 : ℝ) := by
  constructor
  · simp [calculate_distance]
  · simp [calculate_distance]

/-- C5 (amended): `build_search_url` clamps a numeric distance into
`[1, 500]` (0 and -5 become 1, 1000 becomes 500), an absent (`None`)
distance becomes 100, and the resulting URL carries the clamped value; a
distance that `int()` cannot convert raises a `ValueError` instead of
becoming 100 (see the counterexample). -/
theorem build_search_url_clamps :
    (∀ c s a p l, build_search_url c s a p l DistanceArg.none =
      build_search_url c s a p l (.int 100))
    ∧ (∀ c s a p l, build_search_url c s a p l (.int 0) =
      build_search_url c s a p l (.int 1))
    ∧ (∀ c s a p l, build_search_url c s a p l (.int (-5)) =
      build_search_url c s a p l (.int 1))
    ∧ (∀ c s a p l, build_search_url c s a p l (.int 1000) =
      build_search_url c s a p l (.int 500))
    ∧ build_search_url "seattle" "wa" "dogs" 1 100 (.int 0) =
      .ok "https://www.petfinder.com/search/?page=1&limit[]=100&status=adoptable&distance[]=1&type[]=dogs&sort[]=nearest&location_slug[]=us%2Fwa%2Fseattle&include_transportable=true"
    ∧ build_search_url "seattle" "wa" "dogs" 1 100 DistanceArg.none =
      .ok "https://www.petfinder.com/search/?page=1&limit[]=100&status=adoptable&distance[]=100&type[]=dogs&sort[]=nearest&location_slug[]=us%2Fwa%2Fseattle&include_transportable=true" :=
  ⟨fun _ _ _ _ _ => rfl, fun _ _ _ _ _ => rfl, fun _ _ _ _ _ => rfl,
    fun _ _ _ _ _ => rfl, rfl, rfl⟩

/-- C5 counterexample: a non-numeric distance string makes
`build_search_url` raise a `ValueError` (from `int()`), not fall back to
100. -/
theorem build_search_url_invalid_counterexample :
    build_search_url "seattle" "wa" "dogs" 1 100 (.str "far") =
      .error (.valueError "invalid literal for int() with base 10: far")
    ∧ build_search_url "seattle" "wa" "dogs" 1 100 (.str "far") ≠
      build_search_url "seattle" "wa" "dogs" 1 100 (.int 100) := by
  constructor
  · rfl
  · have h1 : build_search_url "seattle" "wa" "dogs" 1 100 (.str "far") =
        .error (.valueError "invalid literal for int() with base 10: far") := rfl
    rw [h1]
    intro h
    exact Except.noConfusion (h.trans (rfl :
      build_search_url "seattle" "wa" "dogs" 1 100 (.int 100) =
        .ok "https://www.petfinder.com/search/?page=1&limit[]=100&status=adoptable&distance[]=100&type[]=dogs&sort[]=nearest&location_slug[]=us%2Fwa%2Fseattle&include_transportable=true"))

lemma calculate_distance_some (x y a b : ℚ) (hx : x ≠ 0) (hy : y ≠ 0)
    (ha : a ≠ 0) (hb : b ≠ 0) :
    calculate_distance (some x) (some y) (some a) (some b) =
      some (haversine x y a b) := by
  simp only [calculate_distance]
  rw [if_neg (by tauto)]

lemma distanceFiltered_none_maxDist (sl so : Option ℚ) (r : PetRecord) :
    distanceFiltered sl so Option.none r = false := by
  cases sl <;> cases so <;> rfl

lemma distanceFiltered_all_none (r : PetRecord) :
    distanceFiltered Option.none Option.none Option.none r = false := rfl

lemma distanceFiltered_zero_coord (sl so M : Option ℚ) (r : PetRecord)
    (h : r.latitude = some 0 ∨ r.longitude = some 0) :
    distanceFiltered sl so M r = false := by
  rcases sl with _ | sl <;> rcases so with _ | so <;> rcases M with _ | m <;>
    simp only [distanceFiltered]
  by_cases hg : sl ≠ 0 ∧ so ≠ 0 ∧ m ≠ 0
  · rw [if_pos hg]
    rcases h with h | h <;> simp [h, truthyQ]
  · rw [if_neg hg]

lemma distanceFiltered_zero_origin_lat (so M : Option ℚ) (r : PetRecord) :
    distanceFiltered (some 0) so M r = false := by
  rcases so with _ | so <;> rcases M with _ | m <;> simp [distanceFiltered]

lemma distanceFiltered_zero_origin_lon (sl M : Option ℚ) (r : PetRecord) :
    distanceFiltered sl (some 0) M r = false := by
  rcases sl with _ | sl <;> rcases M with _ | m <;> simp [distanceFiltered]

lemma distanceFiltered_active (a b m x y : ℚ) (ha : a ≠ 0) (hb : b ≠ 0)
    (hm : m ≠ 0) (r : PetRecord) (hx : r.latitude = some x) (hx0 : x ≠ 0)
    (hy : r.longitude = some y) (hy0 : y ≠ 0) :
    distanceFiltered (some a) (some b) (some m) r =
      decide (haversine x y a b > (m : ℝ)) := by
  simp only [distanceFiltered]
  rw [if_pos ⟨ha, hb, hm⟩, hx, hy, calculate_distance_some x y a b hx0 hy0 ha hb]
  simp [truthyQ, hx0, hy0]

lemma applyRecord_of_not_filtered (sl so M : Option ℚ) (now : ℕ) (s : SaveState)
    (r : PetRecord) (h : distanceFiltered sl so M r = false) :
    applyRecord sl so M now s r = upsertRecord now s r := by
  simp [applyRecord, h]

lemma foldl_congr_fun {f g : SaveState → PetRecord → SaveState}
    (h : ∀ s r, f s r = g s r) :
    ∀ (recs : List PetRecord) (init : SaveState),
      recs.foldl f init = recs.foldl g init := by
  intro recs
  induction recs with
  | nil => intro init; rfl
  | cons r rs ih => intro init; simp only [List.foldl_cons, h, ih]

/-- C1: with a truthy resolved origin `(a, b)` and truthy max distance `m`,
a record carrying truthy coordinates `(x, y)` is kept by the distance
filter iff its haversine distance from the origin is at most `m` (and then
persisting it from an empty table stores exactly it), while a record with
falsy coordinates always passes the filter. -/
theorem save_retains_iff_within_distance (a b m x y : ℚ) (ha : a ≠ 0) (hb : b ≠ 0)
    (hm : m ≠ 0) (r : PetRecord) (hx : r.latitude = some x) (hx0 : x ≠ 0)
    (hy : r.longitude = some y) (hy0 : y ≠ 0) :
    (distanceFiltered (some a) (some b) (some m) r = false ↔
      haversine x y a b ≤ (m : ℝ))
    ∧ (∀ r2 : PetRecord,
        truthyQ r2.latitude = false ∨ truthyQ r2.longitude = false →
        distanceFiltered (some a) (some b) (some m) r2 = false)
    ∧ (∀ nid now : ℕ,
        (haversine x y a b ≤ (m : ℝ) →
          (save_pets_to_database [] nid now [r] (some a) (some b) (some m)).store =
            [newPet nid now r])
        ∧ (¬ haversine x y a b ≤ (m : ℝ) →
          (save_pets_to_database [] nid now [r] (some a) (some b) (some m)).store =
            [])) := by
  have hf := distanceFiltered_active a b m x y ha hb hm r hx hx0 hy hy0
  refine ⟨?_, ?_, ?_⟩
  · rw [hf]
    simp [not_lt]
  · intro r2 h2
    simp only [distanceFiltered]
    rw [if_pos ⟨ha, hb, hm⟩]
    rcases h2 with h2 | h2 <;> simp [h2]
  · intro nid now
    constructor
    · intro hle
      have hff : distanceFiltered (some a) (some b) (some m) r = false := by
        rw [hf]; exact decide_eq_false (not_lt.mpr hle)
      simp [save_pets_to_database, applyRecord, hff, upsertRecord, lookupExisting,
        firstByCreatedDesc]
    · intro hgt
      have hft : distanceFiltered (some a) (some b) (some m) r = true := by
        rw [hf]; exact decide_eq_true (not_le.mp hgt)
      simp [save_pets_to_database, applyRecord, hft]

/-- C1 witness: the theorem at origin (1, 1), max distance 5 and the record
at (2, 3). -/
theorem save_retains_iff_within_distance_witness :
    (distanceFiltered (some 1) (some 1) (some 5)
        ⟨"n", "b", "u", some 2, some 3⟩ = false ↔
      haversine 2 3 1 1 ≤ ((5 : ℚ) : ℝ))
    ∧ (∀ r2 : PetRecord,
        truthyQ r2.latitude = false ∨ truthyQ r2.longitude = false →
        distanceFiltered (some 1) (some 1) (some 5) r2 = false)
    ∧ (∀ nid now : ℕ,
        (haversine 2 3 1 1 ≤ ((5 : ℚ) : ℝ) →
          (save_pets_to_database [] nid now [⟨"n", "b", "u", some 2, some 3⟩]
            (some 1) (some 1) (some 5)).store =
              [newPet nid now ⟨"n", "b", "u", some 2, some 3⟩])
        ∧ (¬ haversine 2 3 1 1 ≤ ((5 : ℚ) : ℝ) →
          (save_pets_to_database [] nid now [⟨"n", "b", "u", some 2, some 3⟩]
            (some 1) (some 1) (some 5)).store = [])) :=
  save_retains_iff_within_distance 1 1 5 2 3 (by norm_num) (by norm_num)
    (by norm_num) ⟨"n", "b", "u", some 2, some 3⟩ rfl (by norm_num) rfl (by norm_num)

/-- C10: coordinate presence is truthiness, so a zero coordinate counts as
missing: `calculate_distance` is absent whenever one of its four present
inputs is 0; a record with a zero latitude or longitude is never
distance-filtered and its loop iteration is the plain upsert; and a batch
whose resolved origin has a zero coordinate is saved exactly as if no
distance filtering were requested. -/
theorem zero_coordinate_disables_filtering :
    (∀ la lo ta tb : ℚ, (la = 0 ∨ lo = 0 ∨ ta = 0 ∨ tb = 0) →
      calculate_distance (some la) (some lo) (some ta) (some tb) = Option.none)
    ∧ (∀ sl so M : Option ℚ, ∀ now : ℕ, ∀ s : SaveState, ∀ r : PetRecord,
        (r.latitude = some 0 ∨ r.longitude = some 0) →
        distanceFiltered sl so M r = false ∧
          applyRecord sl so M now s r =
            applyRecord Option.none Option.none Option.none now s r)
    ∧ (∀ so M : Option ℚ, ∀ store : List StoredPet, ∀ nid now : ℕ,
        ∀ recs : List PetRecord,
        save_pets_to_database store nid now recs (some 0) so M =
          save_pets_to_database store nid now recs Option.none Option.none Option.none)
    ∧ (∀ sl M : Option ℚ, ∀ store : List StoredPet, ∀ nid now : ℕ,
        ∀ recs : List PetRecord,
        save_pets_to_database store nid now recs sl (some 0) M =
          save_pets_to_database store nid now recs Option.none Option.none Option.none) := by
  refine ⟨?_, ?_, ?_, ?_⟩
  · intro la lo ta tb h
    simp only [calculate_distance]
    rw [if_pos h]
  · intro sl so M now s r h
    have h1 := distanceFiltered_zero_coord sl so M r h
    refine ⟨h1, ?_⟩
    rw [applyRecord_of_not_filtered _ _ _ _ _ _ h1,
      applyRecord_of_not_filtered _ _ _ _ _ _ (distanceFiltered_all_none r)]
  · intro so M store nid now recs
    exact foldl_congr_fun (fun s r => by
      rw [applyRecord_of_not_filtered _ _ _ _ _ _ (distanceFiltered_zero_origin_lat so M r),
        applyRecord_of_not_filtered _ _ _ _ _ _ (distanceFiltered_all_none r)]) recs _
  · intro sl M store nid now recs
    exact foldl_congr_fun (fun s r => by
      rw [applyRecord_of_not_filtered _ _ _ _ _ _ (distanceFiltered_zero_origin_lon sl M r),
        applyRecord_of_not_filtered _ _ _ _ _ _ (distanceFiltered_all_none r)]) recs _

/-- C10 witness: the theorem at a record with latitude 0 and at an origin
with latitude 0. -/
theorem zero_coordinate_disables_filtering_witness :
    calculate_distance (some 0) (some 1) (some 2) (some 3) = Option.none
    ∧ distanceFiltered (some 1) (some 1) (some 5)
        ⟨"a", "b", "u", some 0, some 1⟩ = false
    ∧ save_pets_to_database [] 0 7 [⟨"a", "b", "u", some 0, some 1⟩]
        (some 0) (some 1) (some 5) =
      save_pets_to_database [] 0 7 [⟨"a", "b", "u", some 0, some 1⟩]
        Option.none Option.none Option.none :=
  ⟨zero_coordinate_disables_filtering.1 0 1 2 3 (Or.inl rfl),
    (zero_coordinate_disables_filtering.2.1 (some 1) (some 1) (some 5) 0
      ⟨[], 0, 0, 0, 0⟩ ⟨"a", "b", "u", some 0, some 1⟩ (Or.inl rfl)).1,
    zero_coordinate_disables_filtering.2.2.1 (some 1) (some 5) [] 0 7
      [⟨"a", "b", "u", some 0, some 1⟩]⟩

lemma firstByCreatedDesc_mem :
    ∀ {l : List StoredPet} {p : StoredPet}, firstByCreatedDesc l = some p → p ∈ l := by
  intro l
  induction l with
  | nil => intro p h; simp [firstByCreatedDesc] at h
  | cons a t ih =>
    intro p h
    simp only [firstByCreatedDesc] at h
    rcases hrec : firstByCreatedDesc t with _ | q <;> rw [hrec] at h
    · simp only [] at h
      exact (Option.some.inj h) ▸ List.mem_cons_self a t
    · simp only [] at h
      split_ifs at h with hlt
      · exact List.mem_cons_of_mem a (ih (hrec.trans h))
      · exact (Option.some.inj h) ▸ List.mem_cons_self a t

lemma firstByCreatedDesc_ne_none {l : List StoredPet} (h : l ≠ []) :
    ∃ p, firstByCreatedDesc l = some p := by
  cases l with
  | nil => exact absurd rfl h
  | cons a t =>
    simp only [firstByCreatedDesc]
    rcases hrec : firstByCreatedDesc t with _ | q
    · exact ⟨a, rfl⟩
    · by_cases hlt : a.created_at < q.created_at
      · refine ⟨q, ?_⟩
        show (if a.created_at < q.created_at then some q else some a) = some q
        rw [if_pos hlt]
      · refine ⟨a, ?_⟩
        show (if a.created_at < q.created_at then some q else some a) = some a
        rw [if_neg hlt]

lemma pairwise_id_unique {l : List StoredPet}
    (h : l.Pairwise (fun p q => p.id ≠ q.id)) :
    ∀ {p q : StoredPet}, p ∈ l → q ∈ l → p.id = q.id → p = q := by
  induction l with
  | nil => intro p q hp; simp at hp
  | cons a t ih =>
    rw [List.pairwise_cons] at h
    intro p q hp hq heq
    rcases List.mem_cons.mp hp with rfl | hp'
    · rcases List.mem_cons.mp hq with rfl | hq'
      · rfl
      · exact absurd heq (h.1 q hq')
    · rcases List.mem_cons.mp hq with rfl | hq'
      · exact absurd heq.symm (h.1 p hp')
      · exact ih h.2 hp' hq' heq

lemma urlCount_append (l1 l2 : List StoredPet) (u : String) :
    urlCount (l1 ++ l2) u = urlCount l1 u + urlCount l2 u := by
  simp [urlCount, List.countP_append]

lemma urlCount_map_eq {l : List StoredPet} {f : StoredPet → StoredPet}
    (h : ∀ q ∈ l, (f q).profile_url = q.profile_url) (u : String) :
    urlCount (l.map f) u = urlCount l u := by
  induction l with
  | nil => rfl
  | cons a t ih =>
    simp only [List.map_cons, urlCount, List.countP_cons] at *
    rw [h a (List.mem_cons_self a t), ih (fun q hq => h q (List.mem_cons_of_mem a hq))]

lemma urlCount_pos {l : List StoredPet} {u : String} :
    0 < urlCount l u ↔ ∃ p ∈ l, p.profile_url = u := by
  simp [urlCount, List.countP_pos_iff]

lemma urlCount_le_one {store : List StoredPet} (hu : uniqueProfileUrls store)
    {u : String} (hne : u ≠ "") : urlCount store u ≤ 1 := by
  induction store with
  | nil => simp [urlCount]
  | cons a t ih =>
    rw [uniqueProfileUrls, List.pairwise_cons] at hu
    simp only [urlCount, List.countP_cons]
    by_cases ha : a.profile_url = u
    · have ht : t.countP (fun p => p.profile_url == u) = 0 := by
        rw [List.countP_eq_zero]
        intro q hq hqu
        rw [beq_iff_eq] at hqu
        exact hne (ha ▸ hu.1 q hq (ha.trans hqu.symm))
      simp [ht, ha]
    · have : (a.profile_url == u) = false := by simp [ha]
      simp only [this, if_false, urlCount] at *
      exact ih hu.2

lemma lookupExisting_mem {store : List StoredPet} {r : PetRecord} {p : StoredPet}
    (h : lookupExisting store r = some p) :
    p ∈ store ∧ p.profile_url = pyStrip r.profile_url := by
  rw [lookupExisting] at h
  split_ifs at h
  have hm := firstByCreatedDesc_mem h
  rw [List.mem_filter] at hm
  exact ⟨hm.1, by simpa using hm.2⟩

lemma lookupExisting_isSome {store : List StoredPet} {r : PetRecord}
    (htrim : pyStrip r.profile_url = r.profile_url) (hne : r.profile_url ≠ "")
    (hcnt : 0 < urlCount store r.profile_url) :
    ∃ p, lookupExisting store r = some p := by
  rw [lookupExisting, htrim, if_pos hne]
  rcases urlCount_pos.mp hcnt with ⟨q, hq, hqu⟩
  have : q ∈ store.filter (fun p => p.profile_url == r.profile_url) :=
    List.mem_filter.mpr ⟨hq, by simp [hqu]⟩
  exact firstByCreatedDesc_ne_none (List.ne_nil_of_mem this)

lemma lookupExisting_none_count {store : List StoredPet} {r : PetRecord}
    (htrim : pyStrip r.profile_url = r.profile_url) (hne : r.profile_url ≠ "")
    (h : lookupExisting store r = Option.none) :
    urlCount store r.profile_url = 0 := by
  rw [lookupExisting, htrim, if_pos hne] at h
  have hnil : store.filter (fun p => p.profile_url == r.profile_url) = [] := by
    by_contra hc
    rcases firstByCreatedDesc_ne_none hc with ⟨p, hp⟩
    rw [h] at hp
    cases hp
  rw [urlCount, List.countP_eq_length_filter, hnil]
  rfl

lemma applyRecord_of_filtered (sl so M : Option ℚ) (now : ℕ) (s : SaveState)
    (r : PetRecord) (h : distanceFiltered sl so M r = true) :
    applyRecord sl so M now s r = { s with filtered := s.filtered + 1 } := by
  simp [applyRecord, h]

lemma upsertRecord_update {now : ℕ} {s : SaveState} {r : PetRecord} {p : StoredPet}
    (h : lookupExisting s.store r = some p) :
    upsertRecord now s r =
      { s with
        store := s.store.map (fun q => if q.id = p.id then updatePet q r else q)
        updated := s.updated + 1 } := by
  simp [upsertRecord, h]

lemma upsertRecord_create {now : ℕ} {s : SaveState} {r : PetRecord}
    (h : lookupExisting s.store r = Option.none) :
    upsertRecord now s r =
      { s with
        store := s.store ++ [newPet s.nextId now r]
        nextId := s.nextId + 1
        saved := s.saved + 1 } := by
  simp [upsertRecord, h]

lemma update_map_id_preserve (p : StoredPet) (r : PetRecord) (q : StoredPet) :
    (if q.id = p.id then updatePet q r else q).id = q.id := by
  by_cases hid : q.id = p.id <;> simp [hid, updatePet]

lemma update_map_url_preserve {store : List StoredPet} {r : PetRecord} {p : StoredPet}
    (hwf : store.Pairwise (fun a b => a.id ≠ b.id))
    (hp : p ∈ store) (hpu : p.profile_url = r.profile_url) :
    ∀ q ∈ store, (if q.id = p.id then updatePet q r else q).profile_url = q.profile_url := by
  intro q hq
  by_cases hid : q.id = p.id
  · have hqp : q = p := pairwise_id_unique hwf hq hp hid
    subst hqp
    rw [if_pos hid]
    show r.profile_url = q.profile_url
    exact hpu.symm
  · rw [if_neg hid]

lemma upsertRecord_wf {now : ℕ} {s : SaveState} {r : PetRecord}
    (hwf : WellFormedStore s.store s.nextId) :
    WellFormedStore (upsertRecord now s r).store (upsertRecord now s r).nextId := by
  rcases hE : lookupExisting s.store r with _ | p
  · rw [upsertRecord_create hE]
    constructor
    · rw [List.pairwise_append]
      refine ⟨hwf.1, List.pairwise_singleton _ _, ?_⟩
      intro a ha b hb
      rw [List.mem_singleton] at hb
      subst hb
      simp only [newPet]
      exact Nat.ne_of_lt (hwf.2 a ha)
    · intro q hq
      rw [List.mem_append] at hq
      rcases hq with hq | hq
      · exact Nat.lt_succ_of_lt (hwf.2 q hq)
      · rw [List.mem_singleton] at hq
        subst hq
        simp [newPet]
  · rw [upsertRecord_update hE]
    constructor
    · rw [List.pairwise_map]
      refine hwf.1.imp ?_
      intro a b hab
      rw [update_map_id_preserve, update_map_id_preserve]
      exact hab
    · intro q hq
      rw [List.mem_map] at hq
      rcases hq with ⟨q0, hq0, rfl⟩
      rw [update_map_id_preserve]
      exact hwf.2 q0 hq0

lemma upsertRecord_unique {now : ℕ} {s : SaveState} {r : PetRecord}
    (htrim : pyStrip r.profile_url = r.profile_url)
    (hwf : WellFormedStore s.store s.nextId) (hu : uniqueProfileUrls s.store) :
    uniqueProfileUrls (upsertRecord now s r).store := by
  rcases hE : lookupExisting s.store r with _ | p
  · rw [upsertRecord_create hE]
    rw [uniqueProfileUrls, List.pairwise_append]
    refine ⟨hu, List.pairwise_singleton _ _, ?_⟩
    intro a ha b hb
    rw [List.mem_singleton] at hb
    subst hb
    intro hab
    by_cases hemp : r.profile_url = ""
    · rw [show (newPet s.nextId now r).profile_url = r.profile_url from rfl, hemp] at hab
      exact hab
    · exfalso
      have h0 := lookupExisting_none_count htrim hemp hE
      have h1 : 0 < urlCount s.store r.profile_url :=
        urlCount_pos.mpr ⟨a, ha, hab⟩
      omega
  · obtain ⟨hpmem, hpurl⟩ := lookupExisting_mem hE
    rw [upsertRecord_update hE]
    rw [uniqueProfileUrls, List.pairwise_map]
    have hpres := update_map_url_preserve hwf.1 hpmem (hpurl.trans htrim)
    refine List.Pairwise.imp_of_mem ?_ hu
    intro a b ha hb hR hfab
    rw [hpres a ha, hpres b hb] at hfab
    rw [hpres a ha]
    exact hR hfab

lemma upsertRecord_urlCount_mono {now : ℕ} {s : SaveState} {r : PetRecord}
    (htrim : pyStrip r.profile_url = r.profile_url)
    (hwf : WellFormedStore s.store s.nextId) (u : String) :
    urlCount s.store u ≤ urlCount (upsertRecord now s r).store u := by
  rcases hE : lookupExisting s.store r with _ | p
  · rw [upsertRecord_create hE]
    show urlCount (s.store ++ [newPet s.nextId now r]) u ≥ urlCount s.store u
    rw [urlCount_append]
    exact Nat.le_add_right _ _
  · obtain ⟨hpmem, hpurl⟩ := lookupExisting_mem hE
    rw [upsertRecord_update hE]
    show urlCount (s.store.map _) u ≥ urlCount s.store u
    rw [urlCount_map_eq (update_map_url_preserve hwf.1 hpmem (hpurl.trans htrim)) u]

lemma upsertRecord_urlCount_self {now : ℕ} {s : SaveState} {r : PetRecord}
    (htrim : pyStrip r.profile_url = r.profile_url)
    (hwf : WellFormedStore s.store s.nextId) :
    0 < urlCount (upsertRecord now s r).store r.profile_url := by
  rcases hE : lookupExisting s.store r with _ | p
  · rw [upsertRecord_create hE]
    show 0 < urlCount (s.store ++ [newPet s.nextId now r]) r.profile_url
    rw [urlCount_append]
    have h1 : urlCount [newPet s.nextId now r] r.profile_url = 1 := by
      simp [urlCount, newPet]
    omega
  · obtain ⟨hpmem, hpurl⟩ := lookupExisting_mem hE
    rw [upsertRecord_update hE]
    show 0 < urlCount (s.store.map _) r.profile_url
    rw [urlCount_map_eq (update_map_url_preserve hwf.1 hpmem (hpurl.trans htrim)) _]
    exact urlCount_pos.mpr ⟨p, hpmem, hpurl.trans htrim⟩

lemma upsertRecord_update_mode {now : ℕ} {s : SaveState} {r : PetRecord}
    (htrim : pyStrip r.profile_url = r.profile_url) (hne : r.profile_url ≠ "")
    (hwf : WellFormedStore s.store s.nextId)
    (hcnt : 0 < urlCount s.store r.profile_url) :
    (upsertRecord now s r).saved = s.saved ∧
    (upsertRecord now s r).nextId = s.nextId ∧
    (upsertRecord now s r).store.length = s.store.length ∧
    ∀ u, urlCount (upsertRecord now s r).store u = urlCount s.store u := by
  rcases lookupExisting_isSome htrim hne hcnt with ⟨p, hE⟩
  obtain ⟨hpmem, hpurl⟩ := lookupExisting_mem hE
  rw [upsertRecord_update hE]
  exact ⟨rfl, rfl, by simp,
    fun u => urlCount_map_eq (update_map_url_preserve hwf.1 hpmem (hpurl.trans htrim)) u⟩

lemma foldl_upsert_wf {now : ℕ} :
    ∀ (recs : List PetRecord) (s : SaveState),
      WellFormedStore s.store s.nextId →
      WellFormedStore ((recs.foldl (upsertRecord now) s).store)
        ((recs.foldl (upsertRecord now) s).nextId) := by
  intro recs
  induction recs with
  | nil => intro s h; exact h
  | cons r rs ih => intro s h; exact ih _ (upsertRecord_wf h)

lemma foldl_upsert_unique {now : ℕ} :
    ∀ (recs : List PetRecord) (s : SaveState),
      (∀ r ∈ recs, pyStrip r.profile_url = r.profile_url) →
      WellFormedStore s.store s.nextId → uniqueProfileUrls s.store →
      uniqueProfileUrls ((recs.foldl (upsertRecord now) s).store) := by
  intro recs
  induction recs with
  | nil => intro s _ _ hu; exact hu
  | cons r rs ih =>
    intro s htrim hwf hu
    exact ih _ (fun q hq => htrim q (List.mem_cons_of_mem r hq)) (upsertRecord_wf hwf)
      (upsertRecord_unique (htrim r (List.mem_cons_self r rs)) hwf hu)

lemma foldl_upsert_count_mono {now : ℕ} :
    ∀ (recs : List PetRecord) (s : SaveState) (u : String),
      (∀ r ∈ recs, pyStrip r.profile_url = r.profile_url) →
      WellFormedStore s.store s.nextId →
      urlCount s.store u ≤ urlCount ((recs.foldl (upsertRecord now) s).store) u := by
  intro recs
  induction recs with
  | nil => intro s u _ _; exact Nat.le_refl _
  | cons r rs ih =>
    intro s u htrim hwf
    exact Nat.le_trans
      (upsertRecord_urlCount_mono (htrim r (List.mem_cons_self r rs)) hwf u)
      (ih _ u (fun q hq => htrim q (List.mem_cons_of_mem r hq)) (upsertRecord_wf hwf))

lemma foldl_upsert_count_pos {now : ℕ} :
    ∀ (recs : List PetRecord) (s : SaveState),
      (∀ r ∈ recs, pyStrip r.profile_url = r.profile_url ∧ r.profile_url ≠ "") →
      WellFormedStore s.store s.nextId →
      ∀ r ∈ recs, 0 < urlCount ((recs.foldl (upsertRecord now) s).store) r.profile_url := by
  intro recs
  induction recs with
  | nil => intro s _ _ r hr; simp at hr
  | cons r0 rs ih =>
    intro s hok hwf r hr
    have hok0 := hok r0 (List.mem_cons_self r0 rs)
    have hwf1 : WellFormedStore ((upsertRecord now s r0).store)
        ((upsertRecord now s r0).nextId) := upsertRecord_wf hwf
    rcases List.mem_cons.mp hr with rfl | hr'
    · exact Nat.lt_of_lt_of_le
        (upsertRecord_urlCount_self hok0.1 hwf)
        (foldl_upsert_count_mono rs _ _
          (fun q hq => (hok q (List.mem_cons_of_mem r hq)).1) hwf1)
    · exact ih _ (fun q hq => hok q (List.mem_cons_of_mem r0 hq)) hwf1 r hr'

lemma foldl_upsert_noop {now : ℕ} :
    ∀ (recs : List PetRecord) (s : SaveState),
      (∀ r ∈ recs, pyStrip r.profile_url = r.profile_url ∧ r.profile_url ≠ "") →
      WellFormedStore s.store s.nextId →
      (∀ r ∈ recs, 0 < urlCount s.store r.profile_url) →
      (recs.foldl (upsertRecord now) s).saved = s.saved ∧
      (recs.foldl (upsertRecord now) s).store.length = s.store.length ∧
      ∀ u, urlCount ((recs.foldl (upsertRecord now) s).store) u = urlCount s.store u := by
  intro recs
  induction recs with
  | nil => intro s _ _ _; exact ⟨rfl, rfl, fun u => rfl⟩
  | cons r0 rs ih =>
    intro s hok hwf hcnt
    have hok0 := hok r0 (List.mem_cons_self r0 rs)
    obtain ⟨hsv, hni, hlen, hcounts⟩ :=
      upsertRecord_update_mode hok0.1 hok0.2 hwf (hcnt r0 (List.mem_cons_self r0 rs))
    have hwf1 : WellFormedStore ((upsertRecord now s r0).store)
        ((upsertRecord now s r0).nextId) := upsertRecord_wf hwf
    obtain ⟨ih1, ih2, ih3⟩ := ih (upsertRecord now s r0)
      (fun q hq => hok q (List.mem_cons_of_mem r0 hq)) hwf1
      (fun q hq => by rw [hcounts]; exact hcnt q (List.mem_cons_of_mem r0 hq))
    refine ⟨ih1.trans hsv, ih2.trans hlen, fun u => (ih3 u).trans (hcounts u)⟩

lemma save_none_eq_foldl (store : List StoredPet) (nid now : ℕ)
    (recs : List PetRecord) :
    save_pets_to_database store nid now recs Option.none Option.none Option.none =
      recs.foldl (upsertRecord now) ⟨store, nid, 0, 0, 0⟩ := by
  rw [save_pets_to_database]
  exact foldl_congr_fun
    (fun s r => applyRecord_of_not_filtered _ _ _ _ _ _ (distanceFiltered_all_none r)) recs _

lemma foldl_applyRecord_unique {sl so M : Option ℚ} {now : ℕ} :
    ∀ (recs : List PetRecord) (s : SaveState),
      (∀ r ∈ recs, pyStrip r.profile_url = r.profile_url) →
      WellFormedStore s.store s.nextId → uniqueProfileUrls s.store →
      uniqueProfileUrls ((recs.foldl (applyRecord sl so M now) s).store) := by
  intro recs
  induction recs with
  | nil => intro s _ _ hu; exact hu
  | cons r rs ih =>
    intro s htrim hwf hu
    have step : WellFormedStore ((applyRecord sl so M now s r).store)
        ((applyRecord sl so M now s r).nextId) ∧
        uniqueProfileUrls ((applyRecord sl so M now s r).store) := by
      cases hB : distanceFiltered sl so M r
      · rw [applyRecord_of_not_filtered _ _ _ _ _ _ hB]
        exact ⟨upsertRecord_wf hwf,
          upsertRecord_unique (htrim r (List.mem_cons_self r rs)) hwf hu⟩
      · rw [applyRecord_of_filtered _ _ _ _ _ _ hB]
        exact ⟨hwf, hu⟩
    exact ih _ (fun q hq => htrim q (List.mem_cons_of_mem r hq)) step.1 step.2

/-- C3 (amended): for records whose profile identifier is stable under
stripping (which normalizer output always is), `save_pets_to_database`
preserves the at-most-one-row-per-nonempty-profile-URL invariant on any
well-formed starting table, whatever the distance-filter parameters are.
The stripping hypothesis is necessary: the source matches on the stripped
identifier but writes the raw one (see the counterexample). -/
theorem upsert_preserves_unique_profile_url
    (store : List StoredPet) (nid now : ℕ) (records : List PetRecord)
    (sl so M : Option ℚ)
    (htrim : ∀ r ∈ records, pyStrip r.profile_url = r.profile_url)
    (hwf : WellFormedStore store nid) (hu : uniqueProfileUrls store) :
    uniqueProfileUrls (save_pets_to_database store nid now records sl so M).store := by
  rw [save_pets_to_database]
  exact foldl_applyRecord_unique records ⟨store, nid, 0, 0, 0⟩ htrim hwf hu

/-- C3 witness: the theorem on the empty table and a one-record batch. -/
theorem upsert_preserves_unique_profile_url_witness :
    uniqueProfileUrls ((save_pets_to_database [] 0 3
      [⟨"n", "b", "u", Option.none, Option.none⟩]
      Option.none Option.none Option.none).store) :=
  upsert_preserves_unique_profile_url [] 0 3
    [⟨"n", "b", "u", Option.none, Option.none⟩] Option.none Option.none Option.none
    (by
      intro r hr
      rw [List.mem_singleton] at hr
      subst hr
      rfl)
    ⟨List.Pairwise.nil, by simp⟩ List.Pairwise.nil

/-- C3 counterexample: the starting table holds one row with profile URL
`"X"` and one with `" X"` (distinct identifiers, so the invariant holds);
saving one record whose raw identifier is `" X"` matches the `"X"` row by
the *stripped* URL but overwrites it with the raw `" X"`, leaving two rows
with the nonempty identifier `" X"`. -/
theorem upsert_unique_profile_url_counterexample :
    uniqueProfileUrls [⟨0, "a", "b", "X", Option.none, Option.none, 0⟩,
      ⟨1, "c", "d", " X", Option.none, Option.none, 0⟩]
    ∧ WellFormedStore [⟨0, "a", "b", "X", Option.none, Option.none, 0⟩,
      ⟨1, "c", "d", " X", Option.none, Option.none, 0⟩] 2
    ∧ urlCount ((save_pets_to_database
        [⟨0, "a", "b", "X", Option.none, Option.none, 0⟩,
          ⟨1, "c", "d", " X", Option.none, Option.none, 0⟩]
        2 5 [⟨"e", "f", " X", Option.none, Option.none⟩]
        Option.none Option.none Option.none).store) " X" = 2
    ∧ ¬ uniqueProfileUrls ((save_pets_to_database
        [⟨0, "a", "b", "X", Option.none, Option.none, 0⟩,
          ⟨1, "c", "d", " X", Option.none, Option.none, 0⟩]
        2 5 [⟨"e", "f", " X", Option.none, Option.none⟩]
        Option.none Option.none Option.none).store) := by
  have hstore : (save_pets_to_database
      [⟨0, "a", "b", "X", Option.none, Option.none, 0⟩,
        ⟨1, "c", "d", " X", Option.none, Option.none, 0⟩]
      2 5 [⟨"e", "f", " X", Option.none, Option.none⟩]
      Option.none Option.none Option.none).store =
      [⟨0, "e", "f", " X", Option.none, Option.none, 0⟩,
        ⟨1, "c", "d", " X", Option.none, Option.none, 0⟩] := rfl
  refine ⟨?_, ?_, ?_, ?_⟩
  · rw [uniqueProfileUrls]
    refine List.Pairwise.cons ?_ (List.pairwise_singleton _ _)
    intro q hq
    rw [List.mem_singleton] at hq
    subst hq
    intro hc
    exact absurd hc (by decide)
  · refine ⟨List.Pairwise.cons ?_ (List.pairwise_singleton _ _), ?_⟩
    · intro q hq
      rw [List.mem_singleton] at hq
      subst hq
      decide
    · intro p hp
      rcases List.mem_cons.mp hp with rfl | hp'
      · decide
      · rw [List.mem_singleton] at hp'
        subst hp'
        decide
  · rw [hstore]
    rfl
  · rw [hstore]
    intro hcontra
    rw [uniqueProfileUrls, List.pairwise_cons] at hcontra
    have := hcontra.1 ⟨1, "c", "d", " X", Option.none, Option.none, 0⟩
      (List.mem_singleton.mpr rfl) rfl
    exact absurd this (by decide)

/-- C2: starting from a well-formed table satisfying the uniqueness
invariant, applying the same batch of stripped, nonempty-identifier records
twice (no distance filtering requested) inserts nothing the second time,
leaves the table size unchanged, and leaves exactly one stored row per
batch identifier. -/
theorem upsert_idempotent
    (store : List StoredPet) (nid now now2 : ℕ) (records : List PetRecord)
    (htrim : ∀ r ∈ records, pyStrip r.profile_url = r.profile_url)
    (hne : ∀ r ∈ records, r.profile_url ≠ "")
    (hwf : WellFormedStore store nid) (hu : uniqueProfileUrls store) :
    (save_pets_to_database
      (save_pets_to_database store nid now records Option.none Option.none Option.none).store
      (save_pets_to_database store nid now records Option.none Option.none Option.none).nextId
      now2 records Option.none Option.none Option.none).saved = 0
    ∧ (save_pets_to_database
      (save_pets_to_database store nid now records Option.none Option.none Option.none).store
      (save_pets_to_database store nid now records Option.none Option.none Option.none).nextId
      now2 records Option.none Option.none Option.none).store.length =
        (save_pets_to_database store nid now records Option.none Option.none Option.none).store.length
    ∧ ∀ u, (∃ r ∈ records, r.profile_url = u) →
        urlCount ((save_pets_to_database
          (save_pets_to_database store nid now records Option.none Option.none Option.none).store
          (save_pets_to_database store nid now records Option.none Option.none Option.none).nextId
          now2 records Option.none Option.none Option.none).store) u = 1 := by
  have hok : ∀ r ∈ records, pyStrip r.profile_url = r.profile_url ∧ r.profile_url ≠ "" :=
    fun r hr => ⟨htrim r hr, hne r hr⟩
  rw [save_none_eq_foldl, save_none_eq_foldl]
  set s1 : SaveState := records.foldl (upsertRecord now) ⟨store, nid, 0, 0, 0⟩ with hs1
  have hwf1 : WellFormedStore s1.store s1.nextId :=
    foldl_upsert_wf records ⟨store, nid, 0, 0, 0⟩ hwf
  have hu1 : uniqueProfileUrls s1.store :=
    foldl_upsert_unique records ⟨store, nid, 0, 0, 0⟩ htrim hwf hu
  have hpos1 : ∀ r ∈ records, 0 < urlCount s1.store r.profile_url :=
    foldl_upsert_count_pos records ⟨store, nid, 0, 0, 0⟩ hok hwf
  have hwf1' : WellFormedStore (SaveState.store ⟨s1.store, s1.nextId, 0, 0, 0⟩)
      (SaveState.nextId ⟨s1.store, s1.nextId, 0, 0, 0⟩) := hwf1
  obtain ⟨h0, hlen, hcounts⟩ :=
    @foldl_upsert_noop now2 records ⟨s1.store, s1.nextId, 0, 0, 0⟩ hok hwf1'
      (fun r hr => hpos1 r hr)
  refine ⟨h0, hlen, ?_⟩
  intro u ⟨r, hr, hru⟩
  rw [hcounts u]
  show urlCount s1.store u = 1
  have hge : 0 < urlCount s1.store u := hru ▸ hpos1 r hr
  have hle : urlCount s1.store u ≤ 1 := urlCount_le_one hu1 (hru ▸ hne r hr)
  omega

/-- C2 witness: the theorem on the empty table with a one-record batch. -/
theorem upsert_idempotent_witness :
    (save_pets_to_database
      (save_pets_to_database [] 0 1 [⟨"n", "b", "u", Option.none, Option.none⟩]
        Option.none Option.none Option.none).store
      (save_pets_to_database [] 0 1 [⟨"n", "b", "u", Option.none, Option.none⟩]
        Option.none Option.none Option.none).nextId
      2 [⟨"n", "b", "u", Option.none, Option.none⟩]
      Option.none Option.none Option.none).saved = 0
    ∧ (save_pets_to_database
      (save_pets_to_database [] 0 1 [⟨"n", "b", "u", Option.none, Option.none⟩]
        Option.none Option.none Option.none).store
      (save_pets_to_database [] 0 1 [⟨"n", "b", "u", Option.none, Option.none⟩]
        Option.none Option.none Option.none).nextId
      2 [⟨"n", "b", "u", Option.none, Option.none⟩]
      Option.none Option.none Option.none).store.length =
        (save_pets_to_database [] 0 1 [⟨"n", "b", "u", Option.none, Option.none⟩]
          Option.none Option.none Option.none).store.length
    ∧ ∀ u, (∃ r ∈ [(⟨"n", "b", "u", Option.none, Option.none⟩ : PetRecord)],
          r.profile_url = u) →
        urlCount ((save_pets_to_database
          (save_pets_to_database [] 0 1 [⟨"n", "b", "u", Option.none, Option.none⟩]
            Option.none Option.none Option.none).store
          (save_pets_to_database [] 0 1 [⟨"n", "b", "u", Option.none, Option.none⟩]
            Option.none Option.none Option.none).nextId
          2 [⟨"n", "b", "u", Option.none, Option.none⟩]
          Option.none Option.none Option.none).store) u = 1 :=
  upsert_idempotent [] 0 1 2 [⟨"n", "b", "u", Option.none, Option.none⟩]
    (by
      intro r hr
      rw [List.mem_singleton] at hr
      subst hr
      rfl)
    (by
      intro r hr
      rw [List.mem_singleton] at hr
      subst hr
      decide)
    ⟨List.Pairwise.nil, by simp⟩ List.Pairwise.nil

lemma exists_max_created :
    ∀ (l : List StoredPet), l ≠ [] →
      ∃ p ∈ l, ∀ q ∈ l, q.created_at ≤ p.created_at := by
  intro l
  induction l with
  | nil => intro h; exact absurd rfl h
  | cons a t ih =>
    intro _
    rcases t with _ | ⟨b, t'⟩
    · refine ⟨a, List.mem_cons_self a [], ?_⟩
      intro q hq
      rw [List.mem_singleton] at hq
      subst hq
      exact Nat.le_refl _
    · obtain ⟨m, hm, hmax⟩ := ih (by simp)
      by_cases hc : a.created_at ≤ m.created_at
      · refine ⟨m, List.mem_cons_of_mem a hm, ?_⟩
        intro q hq
        rcases List.mem_cons.mp hq with rfl | hq'
        · exact hc
        · exact hmax q hq'
      · refine ⟨a, List.mem_cons_self _ _, ?_⟩
        intro q hq
        rcases List.mem_cons.mp hq with rfl | hq'
        · exact Nat.le_refl _
        · exact Nat.le_trans (hmax q hq') (Nat.le_of_not_le hc)

lemma filter_eq_single {l : List StoredPet} {pred : StoredPet → Bool} {p0 : StoredPet}
    (hids : l.Pairwise (fun a b => a.id ≠ b.id)) (hmem : p0 ∈ l)
    (hp : pred p0 = true) (hothers : ∀ q ∈ l, q ≠ p0 → pred q = false) :
    l.filter pred = [p0] := by
  induction l with
  | nil => simp at hmem
  | cons a t ih =>
    rw [List.pairwise_cons] at hids
    rcases List.mem_cons.mp hmem with rfl | hmem'
    · have ht : t.filter pred = [] := by
        rw [List.filter_eq_nil_iff]
        intro q hq
        have hne : q ≠ p0 := by
          intro he
          exact hids.1 q hq (by rw [he])
        simp [hothers q (List.mem_cons_of_mem _ hq) hne]
      simp [List.filter_cons, hp, ht]
    · have hne : a ≠ p0 := by
        intro he
        exact hids.1 p0 hmem' (by rw [he])
      have hpa : pred a = false := hothers a (List.mem_cons_self a t) hne
      simp only [List.filter_cons, hpa, if_false, Bool.false_eq_true]
      exact ih hids.2 hmem' (fun q hq hq' => hothers q (List.mem_cons_of_mem a hq) hq')

/-- C4: if the table consists of exactly `N > 1` rows all sharing one
nonempty profile URL, with pairwise distinct creation timestamps and
primary keys, the Duplicate Sweep removes exactly `N - 1` rows across its
two passes, the sole survivor is the most recently created row, and the
returned count equals the number removed. -/
theorem duplicate_sweep_keeps_most_recent
    (store : List StoredPet) (u : String) (N : ℕ)
    (hN : store.length = N) (hN1 : 1 < N) (hu : u ≠ "")
    (hall : ∀ p ∈ store, p.profile_url = u)
    (hts : store.Pairwise (fun p q => p.created_at ≠ q.created_at))
    (hids : store.Pairwise (fun p q => p.id ≠ q.id)) :
    ∃ pmax, pmax ∈ store ∧ (∀ q ∈ store, q.created_at ≤ pmax.created_at) ∧
      (remove_duplicate_pets store).1 = [pmax] ∧
      (remove_duplicate_pets store).2 = N - 1 := by
  have hne : store ≠ [] := by
    intro h
    rw [h] at hN
    simp at hN
    omega
  obtain ⟨pmax, hpm, hmax⟩ := exists_max_created store hne
  have hstrict : ∀ q ∈ store, q ≠ pmax → q.created_at < pmax.created_at := by
    intro q hq hqne
    exact Nat.lt_of_le_of_ne (hmax q hq)
      (List.Pairwise.forall (fun _ _ h => Ne.symm h) hts hq hpm hqne)
  have hcnt : urlCount store u = store.length := by
    rw [urlCount, List.countP_eq_length]
    intro p hp
    simp [hall p hp]
  have hpredmax : (pmax.profile_url == "" ||
      decide (urlCount store pmax.profile_url ≤ 1) ||
      isMostRecentOfUrl store pmax) = true := by
    have h3 : isMostRecentOfUrl store pmax = true := by
      rw [isMostRecentOfUrl, List.all_eq_true]
      intro qq hqq
      by_cases hq : qq = pmax
      · subst hq
        simp
      · simp only [Bool.or_eq_true, decide_eq_true_eq]
        exact Or.inr (hstrict qq hqq hq)
    simp [h3]
  have hpredother : ∀ q ∈ store, q ≠ pmax →
      (q.profile_url == "" || decide (urlCount store q.profile_url ≤ 1) ||
        isMostRecentOfUrl store q) = false := by
    intro q hq hqne
    have hqu : q.profile_url = u := hall q hq
    have h1 : (q.profile_url == "") = false := by simp [hqu, hu]
    have h2 : decide (urlCount store q.profile_url ≤ 1) = false := by
      rw [hqu, hcnt]
      exact decide_eq_false (by omega)
    have h3 : isMostRecentOfUrl store q = false := by
      rw [isMostRecentOfUrl]
      rw [List.all_eq_false]
      refine ⟨pmax, hpm, ?_⟩
      have hid : pmax.id ≠ q.id :=
        List.Pairwise.forall (fun _ _ h => Ne.symm h) hids hpm hq (Ne.symm hqne)
      have hlt : ¬ pmax.created_at < q.created_at := by
        have := hstrict q hq hqne
        omega
      simp [hall pmax hpm, hqu, hid, hlt]
    rw [h1, h2, h3]
    rfl
  have hA : sweepByProfileUrl store = [pmax] :=
    filter_eq_single hids hpm hpredmax hpredother
  have hB : sweepByNameBreed [pmax] = [pmax] := by
    simp [sweepByNameBreed, nameBreedCount, List.countP_cons]
  refine ⟨pmax, hpm, hmax, ?_, ?_⟩
  · show sweepByNameBreed (sweepByProfileUrl store) = [pmax]
    rw [hA, hB]
  · show store.length - (sweepByProfileUrl store).length +
      ((sweepByProfileUrl store).length -
        (sweepByNameBreed (sweepByProfileUrl store)).length) = N - 1
    rw [hA, hB, hN]
    simp

/-- C4 witness: the theorem on a three-row table sharing the URL "uu" with
creation timestamps 10, 30, 20. -/
theorem duplicate_sweep_keeps_most_recent_witness :
    ∃ pmax, pmax ∈ [(⟨0, "n0", "b0", "uu", Option.none, Option.none, 10⟩ : StoredPet),
        ⟨1, "n1", "b1", "uu", Option.none, Option.none, 30⟩,
        ⟨2, "n2", "b2", "uu", Option.none, Option.none, 20⟩] ∧
      (∀ q ∈ [(⟨0, "n0", "b0", "uu", Option.none, Option.none, 10⟩ : StoredPet),
        ⟨1, "n1", "b1", "uu", Option.none, Option.none, 30⟩,
        ⟨2, "n2", "b2", "uu", Option.none, Option.none, 20⟩],
        q.created_at ≤ pmax.created_at) ∧
      (remove_duplicate_pets [(⟨0, "n0", "b0", "uu", Option.none, Option.none, 10⟩ : StoredPet),
        ⟨1, "n1", "b1", "uu", Option.none, Option.none, 30⟩,
        ⟨2, "n2", "b2", "uu", Option.none, Option.none, 20⟩]).1 = [pmax] ∧
      (remove_duplicate_pets [(⟨0, "n0", "b0", "uu", Option.none, Option.none, 10⟩ : StoredPet),
        ⟨1, "n1", "b1", "uu", Option.none, Option.none, 30⟩,
        ⟨2, "n2", "b2", "uu", Option.none, Option.none, 20⟩]).2 = 3 - 1 :=
  duplicate_sweep_keeps_most_recent _ "uu" 3 rfl (by omega) (by decide)
    (by
      intro p hp
      rcases List.mem_cons.mp hp with rfl | hp'
      · rfl
      · rcases List.mem_cons.mp hp' with rfl | hp''
        · rfl
        · rw [List.mem_singleton] at hp''
          subst hp''
          rfl)
    (by
      refine List.Pairwise.cons ?_ (List.Pairwise.cons ?_ (List.pairwise_singleton _ _))
      · intro q hq
        rcases List.mem_cons.mp hq with rfl | hq'
        · decide
        · rw [List.mem_singleton] at hq'
          subst hq'
          decide
      · intro q hq
        rw [List.mem_singleton] at hq
        subst hq
        decide)
    (by
      refine List.Pairwise.cons ?_ (List.Pairwise.cons ?_ (List.pairwise_singleton _ _))
      · intro q hq
        rcases List.mem_cons.mp hq with rfl | hq'
        · decide
        · rw [List.mem_singleton] at hq'
          subst hq'
          decide
      · intro q hq
        rw [List.mem_singleton] at hq
        subst hq
        decide)

/-- C6 (amended): `fetch_page_data` yields `PetFinderAPIError` exactly on
transport exceptions, 4xx/5xx statuses, invalid-JSON bodies, and parsed
bodies that are containers (object/array/string) not containing "result";
a containing object is returned unchanged; the raw `RequestException` /
`ValueError` kinds never escape.  A valid scalar JSON body instead raises
an uncaught `TypeError` (see the counterexample). -/
theorem fetch_page_data_error_contract :
    (∀ m, ∃ m2, fetch_page_data (.exn m) = .error (.petFinderAPIError m2))
    ∧ (∀ st body, 400 ≤ st →
        ∃ m2, fetch_page_data (.success st body) = .error (.petFinderAPIError m2))
    ∧ (∀ st, st < 400 →
        ∃ m2, fetch_page_data (.success st Option.none) = .error (.petFinderAPIError m2))
    ∧ (∀ st fields, st < 400 →
        ((fields.any (fun f => f.1 == "result")) = true →
          fetch_page_data (.success st (some (.obj fields))) = .ok (.obj fields))
        ∧ ((fields.any (fun f => f.1 == "result")) = false →
          ∃ m2, fetch_page_data (.success st (some (.obj fields))) =
            .error (.petFinderAPIError m2)))
    ∧ (∀ st q, st < 400 →
        ∃ m2, fetch_page_data (.success st (some (.num q))) = .error (.typeError m2))
    ∧ (∀ resp m, fetch_page_data resp ≠ .error (.requestError m) ∧
        fetch_page_data resp ≠ .error (.valueError m)) := by
  refine ⟨?_, ?_, ?_, ?_, ?_, ?_⟩
  · intro m
    exact ⟨"Failed to fetch data: " ++ m, rfl⟩
  · intro st body h400
    refine ⟨"Failed to fetch data: " ++ s!"HTTP error {st}", ?_⟩
    simp only [fetch_page_data]
    rw [if_pos h400]
  · intro st h400
    refine ⟨"Invalid JSON response: Expecting value", ?_⟩
    simp only [fetch_page_data]
    rw [if_neg (by omega)]
    rfl
  · intro st fields h400
    constructor
    · intro hany
      simp only [fetch_page_data, pyContains]
      rw [if_neg (by omega), hany]
    · intro hany
      refine ⟨"Invalid response structure: missing result key", ?_⟩
      simp only [fetch_page_data, pyContains]
      rw [if_neg (by omega), hany]
  · intro st q h400
    refine ⟨"argument of type is not iterable", ?_⟩
    simp only [fetch_page_data, pyContains]
    rw [if_neg (by omega)]
  · intro resp m
    rcases resp with msg | ⟨st, body⟩
    · constructor <;> simp [fetch_page_data]
    · by_cases h4 : 400 ≤ st
      · constructor <;> (simp only [fetch_page_data]; rw [if_pos h4]; simp)
      · rcases body with _ | data
        · constructor <;> (simp only [fetch_page_data]; rw [if_neg h4]; simp)
        · rcases data with fs | es | s | qq | bb | _
          · constructor <;>
              (simp only [fetch_page_data, pyContains]
               rw [if_neg h4]
               cases fs.any (fun f => f.1 == "result") <;> simp)
          · constructor <;>
              (simp only [fetch_page_data, pyContains]
               rw [if_neg h4]
               cases es.any (fun e => match e with | Json.str s => s == "result" | _ => false) <;>
                 simp)
          · constructor <;>
              (simp only [fetch_page_data, pyContains]
               rw [if_neg h4]
               cases strContains s "result" <;> simp)
          · constructor <;> (simp only [fetch_page_data, pyContains]; rw [if_neg h4]; simp)
          · constructor <;> (simp only [fetch_page_data, pyContains]; rw [if_neg h4]; simp)
          · constructor <;> (simp only [fetch_page_data, pyContains]; rw [if_neg h4]; simp)

/-- C6 witness: the theorem at a timeout, a 500 status, an invalid body, a
body with and without "result", a scalar body, and a raw-error check. -/
theorem fetch_page_data_error_contract_witness :
    (∃ m2, fetch_page_data (.exn "timeout") = .error (.petFinderAPIError m2))
    ∧ (∃ m2, fetch_page_data (.success 500 (some (.obj [("result", .null)]))) =
        .error (.petFinderAPIError m2))
    ∧ (∃ m2, fetch_page_data (.success 200 Option.none) =
        .error (.petFinderAPIError m2))
    ∧ fetch_page_data (.success 200 (some (.obj [("result", .null)]))) =
        .ok (.obj [("result", .null)])
    ∧ (∃ m2, fetch_page_data (.success 200 (some (.obj [("x", .null)]))) =
        .error (.petFinderAPIError m2))
    ∧ (∃ m2, fetch_page_data (.success 200 (some (.num 5))) =
        .error (.typeError m2))
    ∧ fetch_page_data (.success 200 Option.none) ≠ .error (.requestError "boom") :=
  ⟨fetch_page_data_error_contract.1 "timeout",
    fetch_page_data_error_contract.2.1 500 (some (.obj [("result", .null)])) (by omega),
    fetch_page_data_error_contract.2.2.1 200 (by omega),
    (fetch_page_data_error_contract.2.2.2.1 200 [("result", .null)] (by omega)).1 rfl,
    (fetch_page_data_error_contract.2.2.2.1 200 [("x", .null)] (by omega)).2 rfl,
    fetch_page_data_error_contract.2.2.2.2.1 200 5 (by omega),
    (fetch_page_data_error_contract.2.2.2.2.2 (.success 200 Option.none) "boom").1⟩

/-- C6 counterexample: a 200 response whose body is the valid JSON scalar
`5` makes the membership test `'result' not in data` raise a `TypeError`
that no handler catches, so the caller sees a raw `TypeError` instead of
the domain `PetFinderAPIError`. -/
theorem fetch_page_data_scalar_counterexample :
    fetch_page_data (.success 200 (some (.num 5))) =
      .error (.typeError "argument of type is not iterable")
    ∧ ∀ m, fetch_page_data (.success 200 (some (.num 5))) ≠
        .error (.petFinderAPIError m) := by
  constructor
  · rfl
  · intro m h
    rw [show fetch_page_data (.success 200 (some (.num 5))) =
      .error (.typeError "argument of type is not iterable") from rfl] at h
    exact absurd h (by simp)

lemma pageRecords_of_error {fetchPd : ℕ → Except PyErr Json} {firstData : Json}
    {k : ℕ} {e : PyErr} (hk : k ≠ 1) (h : fetchPd k = .error e) :
    pageRecords fetchPd firstData k = [] := by
  simp [pageRecords, hk, h]

lemma scrape_loop_records_eq (fetchPd : ℕ → Except PyErr Json) (firstData : Json) :
    ∀ pages : List ℕ,
      (scrape_loop fetchPd firstData pages).1 =
        pages.foldr (fun p acc => pageRecords fetchPd firstData p ++ acc) [] := by
  intro pages
  induction pages with
  | nil => rfl
  | cons a t ih => simp [scrape_loop, ih]

lemma fetchPage_mem_loop_events (fetchPd : ℕ → Except PyErr Json) (firstData : Json) :
    ∀ (pages : List ℕ) (p : ℕ), p ∈ pages → p ≠ 1 →
      ScrapeEvent.fetchPage p ∈ (scrape_loop fetchPd firstData pages).2 := by
  intro pages
  induction pages with
  | nil => intro p hp; simp at hp
  | cons a t ih =>
    intro p hp hne
    simp only [scrape_loop]
    rw [List.mem_append]
    rcases List.mem_cons.mp hp with rfl | hp'
    · left
      cases h : fetchPd p <;> simp [pageEvents, hne, h]
    · right
      exact ih p hp' hne

lemma sleep_follows_fetch_in_loop (fetchPd : ℕ → Except PyErr Json) (firstData : Json) :
    ∀ (pages : List ℕ) (p : ℕ), p ∈ pages → p ≠ 1 →
      ∀ d, fetchPd p = .ok d →
        [ScrapeEvent.fetchPage p, ScrapeEvent.sleep 2] <:+:
          (scrape_loop fetchPd firstData pages).2 := by
  intro pages
  induction pages with
  | nil => intro p hp; simp at hp
  | cons a t ih =>
    intro p hp hne d hok
    rcases List.mem_cons.mp hp with rfl | hp'
    · refine ⟨[], (scrape_loop fetchPd firstData t).2, ?_⟩
      simp [scrape_loop, pageEvents, hne, hok]
    · exact (ih p hp' hne d hok).trans ((List.suffix_append _ _).isInfix)

lemma scrape_pets_ok {fetchPd : ℕ → Except PyErr Json} {firstData : Json} {tp : ℕ}
    (h1 : fetchPd 1 = .ok firstData) (htp : get_total_pages firstData = .ok tp)
    (store : List StoredPet) (nid now : ℕ) (sl so : Option ℚ) (maxp : ℕ) (dist : ℚ) :
    scrape_pets fetchPd store nid now sl so maxp dist =
      ⟨.ok (tp, (save_pets_to_database store nid now
          (scrape_loop fetchPd firstData (List.range' 1 (min maxp tp))).1
          sl so (some dist)).saved),
        (save_pets_to_database store nid now
          (scrape_loop fetchPd firstData (List.range' 1 (min maxp tp))).1
          sl so (some dist)).store,
        .fetchPage 1 :: (scrape_loop fetchPd firstData (List.range' 1 (min maxp tp))).2⟩ := by
  simp [scrape_pets, h1, htp]

/-- C7 (amended): once the initial page-1 fetch has succeeded and the page
count is known, a failed fetch of a later page `k` contributes no records,
every page from 2 up to the page budget still has its fetch issued, the
scrape still returns normally, and the records accumulated page by page
from the successful pages are the batch handed to the upsert engine.  (A
failure of the initial page-1 fetch instead aborts the whole scrape: see
the counterexample.) -/
theorem scrape_skips_failed_pages
    (fetchPd : ℕ → Except PyErr Json) (firstData : Json) (tp maxp : ℕ)
    (store : List StoredPet) (nid now : ℕ) (sl so : Option ℚ) (dist : ℚ)
    (k : ℕ) (e : PyErr)
    (h1 : fetchPd 1 = .ok firstData) (htp : get_total_pages firstData = .ok tp)
    (hk2 : 2 ≤ k) (hkle : k ≤ min maxp tp) (hfail : fetchPd k = .error e) :
    (scrape_pets fetchPd store nid now sl so maxp dist).result =
      .ok (tp, (save_pets_to_database store nid now
        ((List.range' 1 (min maxp tp)).foldr
          (fun p acc => pageRecords fetchPd firstData p ++ acc) [])
        sl so (some dist)).saved)
    ∧ pageRecords fetchPd firstData k = []
    ∧ (∀ p, 2 ≤ p → p ≤ min maxp tp →
        ScrapeEvent.fetchPage p ∈
          (scrape_pets fetchPd store nid now sl so maxp dist).events) := by
  rw [scrape_pets_ok h1 htp store nid now sl so maxp dist]
  refine ⟨?_, pageRecords_of_error (by omega) hfail, ?_⟩
  · rw [scrape_loop_records_eq]
  · intro p h2 hle
    show ScrapeEvent.fetchPage p ∈
      ScrapeEvent.fetchPage 1 :: (scrape_loop fetchPd firstData (List.range' 1 (min maxp tp))).2
    refine List.mem_cons_of_mem _ ?_
    refine fetchPage_mem_loop_events fetchPd firstData _ p ?_ (by omega)
    rw [List.mem_range'_1]
    omega

/-- C7 witness: a three-page budget where the page-2 fetch fails. -/
theorem scrape_skips_failed_pages_witness :
    (scrape_pets
        (fun p => if p = 2 then .error (.requestError "x") else .ok (pageStub 3))
        [] 0 0 Option.none Option.none 3 100).result =
      .ok (3, (save_pets_to_database [] 0 0
        ((List.range' 1 (min 3 3)).foldr
          (fun p acc => pageRecords
            (fun p => if p = 2 then .error (.requestError "x") else .ok (pageStub 3))
            (pageStub 3) p ++ acc) [])
        Option.none Option.none (some 100)).saved)
    ∧ pageRecords
        (fun p => if p = 2 then .error (.requestError "x") else .ok (pageStub 3))
        (pageStub 3) 2 = []
    ∧ (∀ p, 2 ≤ p → p ≤ min 3 3 →
        ScrapeEvent.fetchPage p ∈
          (scrape_pets
            (fun p => if p = 2 then .error (.requestError "x") else .ok (pageStub 3))
            [] 0 0 Option.none Option.none 3 100).events) :=
  scrape_skips_failed_pages
    (fun p => if p = 2 then .error (.requestError "x") else .ok (pageStub 3))
    (pageStub 3) 3 3 [] 0 0 Option.none Option.none 100 2 (.requestError "x")
    rfl rfl (by omega) (by decide) rfl

/-- C7 counterexample: when the initial page-1 fetch fails, the whole scrape
aborts with `PetFinderAPIError`; no further page is attempted. -/
theorem scrape_first_page_failure_counterexample :
    (scrape_pets (fun _ => .error (.requestError "boom"))
        [] 0 0 Option.none Option.none 3 100).result =
      .error (.petFinderAPIError "Scraping failed: boom")
    ∧ (scrape_pets (fun _ => .error (.requestError "boom"))
        [] 0 0 Option.none Option.none 3 100).events = [.fetchPage 1]
    ∧ ScrapeEvent.fetchPage 2 ∉
        (scrape_pets (fun _ => .error (.requestError "boom"))
          [] 0 0 Option.none Option.none 3 100).events := by
  refine ⟨rfl, rfl, ?_⟩
  intro h
  rw [show (scrape_pets (fun _ => .error (.requestError "boom"))
      [] 0 0 Option.none Option.none 3 100).events = [ScrapeEvent.fetchPage 1] from rfl] at h
  simp at h

/-- C8 (amended): the 2-unit delay is executed immediately after each
successful fetch of a page greater than 1, not before the fetch; in
particular page 2's fetch is issued with no preceding delay (see the
counterexample). -/
theorem scrape_sleeps_after_each_later_fetch
    (fetchPd : ℕ → Except PyErr Json) (firstData : Json) (tp maxp : ℕ)
    (store : List StoredPet) (nid now : ℕ) (sl so : Option ℚ) (dist : ℚ)
    (h1 : fetchPd 1 = .ok firstData) (htp : get_total_pages firstData = .ok tp) :
    ∀ p, 2 ≤ p → p ≤ min maxp tp → ∀ d, fetchPd p = .ok d →
      [ScrapeEvent.fetchPage p, ScrapeEvent.sleep 2] <:+:
        (scrape_pets fetchPd store nid now sl so maxp dist).events := by
  intro p h2 hle d hok
  rw [scrape_pets_ok h1 htp store nid now sl so maxp dist]
  show [ScrapeEvent.fetchPage p, ScrapeEvent.sleep 2] <:+:
    ScrapeEvent.fetchPage 1 :: (scrape_loop fetchPd firstData (List.range' 1 (min maxp tp))).2
  have hmem : p ∈ List.range' 1 (min maxp tp) := by
    rw [List.mem_range'_1]
    omega
  exact (sleep_follows_fetch_in_loop fetchPd firstData _ p hmem (by omega) d hok).trans
    ((List.suffix_cons _ _).isInfix)

/-- C8 witness: a two-page scrape where the page-2 fetch succeeds. -/
theorem scrape_sleeps_after_each_later_fetch_witness :
    [ScrapeEvent.fetchPage 2, ScrapeEvent.sleep 2] <:+:
      (scrape_pets (fun _ => .ok (pageStub 2))
        [] 0 0 Option.none Option.none 2 100).events :=
  scrape_sleeps_after_each_later_fetch (fun _ => .ok (pageStub 2)) (pageStub 2) 2 2
    [] 0 0 Option.none Option.none 100 rfl rfl 2 (by omega) (by decide) (pageStub 2) rfl

/-- C8 counterexample: in a two-page scrape both fetches succeed, the event
trace is fetch page 1, fetch page 2, then the sleep — so no delay precedes
the page-2 fetch; the sleep runs after it. -/
theorem scrape_no_delay_before_page_two_counterexample :
    (scrape_pets (fun _ => .ok (pageStub 2))
        [] 0 0 Option.none Option.none 2 100).events =
      [.fetchPage 1, .fetchPage 2, .sleep 2]
    ∧ ¬ ([ScrapeEvent.sleep 2, ScrapeEvent.fetchPage 2] <:+:
        [ScrapeEvent.fetchPage 1, ScrapeEvent.fetchPage 2, ScrapeEvent.sleep 2]) := by
  constructor
  · rfl
  · rintro ⟨s, t, h⟩
    rcases s with _ | ⟨a, s'⟩
    · simp at h
    · rcases s' with _ | ⟨b, s''⟩
      · simp at h
      · rcases s'' with _ | ⟨c, s'''⟩
        · simp at h
        · simp at h

end PetFinder
